import Mathlib

/-!
# Shallow embedding of the hazard-api repository

Definitions are translated from the Python sources under `src/`:
`social_media/twitter.py`, `social_media/instagram.py`, `api/models.py`,
`api/serializers.py` and `api/views.py`.  Scores, confidences and
coordinates are embedded as rationals; counters as naturals; the
database tables are explicit lists of records, with the Django ORM
calls (`filter(...).first()`, `create`, `get_or_create`, `delete`)
given their standard query semantics on those lists.  All functions
are total by construction, matching the scripts which catch and log
every exception instead of propagating it.
-/

/-- Verdict of the external ML pipeline on one text.  The dict-lookup
defaults applied at the call sites (`get(..., False)`, `get(..., 0.0)`,
`get(..., "neutral")`) are folded into the fields, so a pipeline run
that returns nothing is modelled by the constant function giving
`false`, `0`, `"neutral"`, `0`. -/
structure MLResult where
  is_disaster : Bool
  confidence : ℚ
  sentiment : String
  sentiment_confidence : ℚ
deriving Repr, DecidableEq

/-- Author block of a raw tweet (the `includes.users` entry matching
`author_id` in `_process_tweet`).  `followers_count` is `none` when the
author `public_metrics` dict is missing or empty (Python falsy), and
`some fc` when it is non-empty, `fc` being its `followers_count` value
with the lookup default 0. -/
structure RawAuthor where
  username : String
  name : String
  verified : Bool
  followers_count : Option Int
deriving Repr, DecidableEq

/-- Raw tweet payload as read by `TwitterAPIClient._process_tweet`.
Entity lists are `none` when the corresponding key is absent from the
`entities` dict; `geo_point` is `some (lng, lat)` when
`geo.coordinates.coordinates` holds a pair, and `none` when only a
place reference or no geo data is present. -/
structure RawTweet where
  id : String
  text : String
  author_id : String
  lang : String
  entities_hashtags : Option (List String)
  entities_mentions : Option (List String)
  entities_urls : Option (List String)
  geo_point : Option (ℚ × ℚ)
  author : Option RawAuthor
  like_count : Int
  retweet_count : Int
  reply_count : Int
deriving Repr, DecidableEq

/-- The dict built by `_process_tweet`, restricted to the fields that
`save_tweets_to_db` and `_calculate_credibility_score` read.
`author_followers` is the nested lookup
`raw_data.author.public_metrics.followers_count` used by the scorer;
the `public_metrics` counters of the tweet itself are the three
engagement fields. -/
structure ProcessedTweet where
  tweet_id : String
  text : String
  author_username : String
  author_display_name : String
  language : String
  location : Option (ℚ × ℚ)
  hashtags : List String
  mentions : List String
  urls : List String
  is_verified : Bool
  author_followers : Option Int
  like_count : Int
  retweet_count : Int
  reply_count : Int
deriving Repr, DecidableEq

/-- `TwitterAPIClient._process_tweet` (twitter.py 134-213): normalise
one raw tweet.  Every extraction falls back to an empty collection or
`none` when the source field is absent. -/
def twitter_process_tweet (t : RawTweet) : ProcessedTweet :=
  { tweet_id := t.id
    text := t.text
    author_username := (t.author.map RawAuthor.username).getD ""
    author_display_name := (t.author.map RawAuthor.name).getD ""
    language := t.lang
    location := t.geo_point
    hashtags := t.entities_hashtags.getD []
    mentions := t.entities_mentions.getD []
    urls := t.entities_urls.getD []
    is_verified := (t.author.map RawAuthor.verified).getD false
    author_followers := t.author.bind RawAuthor.followers_count
    like_count := t.like_count
    retweet_count := t.retweet_count
    reply_count := t.reply_count }

/-- `TwitterAPIClient._calculate_credibility_score` (twitter.py
284-321): base 0.5, verified bonus, one follower tier (guarded by the
author metrics being present), one engagement tier, clamped to the
unit interval at the end. -/
def twitter_calculate_credibility_score (t : ProcessedTweet) : ℚ :=
  let score : ℚ := 1/2
  let score := if t.is_verified then score + 2/10 else score
  let score :=
    match t.author_followers with
    | some followers_count =>
        if followers_count > 1000000 then score + 2/10
        else if followers_count > 100000 then score + 15/100
        else if followers_count > 10000 then score + 1/10
        else if followers_count > 1000 then score + 5/100
        else score
    | none => score
  let total_engagement := t.like_count + t.retweet_count + t.reply_count
  let score :=
    if total_engagement > 100 then score + 1/10
    else if total_engagement > 10 then score + 5/100
    else score
  max 0 (min 1 score)

/-- Instagram media insights dict; each field carries the lookup
default 0 used at every access site (`insights.get(..., 0)`), and an
absent insights dict is the all-zero record. -/
structure InstaInsights where
  engagement : Int
  impressions : Int
  reach : Int
deriving Repr, DecidableEq

/-- Instagram user profile as returned by `get_user_profile`. -/
structure InstaProfile where
  pid : String
  username : String
  account_type : String
deriving Repr, DecidableEq

/-- `InstagramAPIClient._calculate_credibility_score` (instagram.py
323-348): base 0.5, business-account bonus, one engagement tier, one
reach tier, clamped at the end.  The reach value is
`insights.get("reach", 0) or insights.get("impressions", 0)`, which
falls back to impressions exactly when the reach value is 0 (Python
falsy). -/
def instagram_calculate_credibility_score (profile : InstaProfile) (insights : InstaInsights) : ℚ :=
  let score : ℚ := 1/2
  let score := if profile.account_type == "BUSINESS" then score + 2/10 else score
  let engagement := insights.engagement
  let score :=
    if engagement > 1000 then score + 2/10
    else if engagement > 100 then score + 15/100
    else if engagement > 10 then score + 1/10
    else score
  let reach := if insights.reach == 0 then insights.impressions else insights.reach
  let score :=
    if reach > 10000 then score + 15/100
    else if reach > 1000 then score + 1/10
    else score
  max 0 (min 1 score)

/-- A Python word character (the `\w` class), ASCII fragment: letters,
digits and underscore. -/
def isWordChar (c : Char) : Bool := c.isAlphanum || c == '_'

/-- `re.findall` for a pattern of the form tag-then-word-run: scanning
left to right, whenever the tag character is immediately followed by a
non-empty maximal run of word characters, that run is one match and
scanning resumes after it. -/
def findTaggedWords (tag : Char) : List Char → List String
  | [] => []
  | c :: rest =>
    let w := rest.takeWhile isWordChar
    if c == tag && !w.isEmpty then
      String.mk w :: findTaggedWords tag (rest.drop w.length)
    else
      findTaggedWords tag rest
termination_by l => l.length
decreasing_by
  · simp only [List.length_drop, List.length_cons]
    omega
  · simp only [List.length_cons]
    omega

/-- `InstagramAPIClient._extract_hashtags` (instagram.py 311-315):
`re.findall` of hash-then-word. -/
def instagram_extract_hashtags (text : String) : List String :=
  findTaggedWords '#' text.toList

/-- `InstagramAPIClient._extract_mentions` (instagram.py 317-321):
`re.findall` of at-sign-then-word. -/
def instagram_extract_mentions (text : String) : List String :=
  findTaggedWords '@' text.toList

/-- Persisted `SocialMediaPost` row, restricted to the fields the two
ingestion pipelines write and the claims mention. -/
structure SocialMediaPost where
  platform : String
  post_id : String
  author_username : String
  content : String
  hashtags : List String
  mentions : List String
  is_disaster_related : Bool
  disaster_confidence : ℚ
  sentiment : String
  sentiment_confidence : ℚ
  credibility_score : ℚ
deriving Repr, DecidableEq

/-- The `SocialMediaPost` table. -/
abbrev PostStore := List SocialMediaPost

/-- `SocialMediaPost.objects.filter(platform=..., post_id=...).first()`
tested for presence, which is all either pipeline does with it. -/
def existsPost (s : PostStore) (platform post_id : String) : Bool :=
  s.any fun p => p.platform == platform && p.post_id == post_id

/-- The row assembled by `save_tweets_to_db` for one new tweet. -/
def mkTwitterPost (t : ProcessedTweet) (ml : MLResult) : SocialMediaPost :=
  { platform := "Twitter"
    post_id := t.tweet_id
    author_username := t.author_username
    content := t.text
    hashtags := t.hashtags
    mentions := t.mentions
    is_disaster_related := ml.is_disaster
    disaster_confidence := ml.confidence
    sentiment := ml.sentiment
    sentiment_confidence := ml.sentiment_confidence
    credibility_score := twitter_calculate_credibility_score t }

/-- Loop body of `TwitterAPIClient.save_tweets_to_db` (twitter.py
219-279): skip when a row with the same (platform, post_id) already
exists, otherwise run the ML pipeline and insert.  Note that this
function applies no classification gate: the verdict is stored on the
row but never tested. -/
def twitter_save_tweet_step (classify : String → MLResult) (acc : PostStore × Nat) (t : ProcessedTweet) : PostStore × Nat :=
  if existsPost acc.1 "Twitter" t.tweet_id then acc
  else
    let ml := classify t.text
    (acc.1 ++ [mkTwitterPost t ml], acc.2 + 1)

/-- `TwitterAPIClient.save_tweets_to_db` (twitter.py 215-282): fold the
per-tweet step over the batch, returning the final store and
`saved_count`. -/
def save_tweets_to_db (classify : String → MLResult) (s : PostStore) (tweets : List ProcessedTweet) : PostStore × Nat :=
  tweets.foldl (twitter_save_tweet_step classify) (s, 0)

/-- One Instagram media item as handed to `_analyze_and_save_media`. -/
structure InstaMedia where
  mid : String
  caption : String
  media_type : String
  media_url : String
  thumbnail_url : String
  timestamp : String
  insights : InstaInsights
deriving Repr, DecidableEq

/-- The row assembled by `_analyze_and_save_media` for one admitted
media item. -/
def mkInstaPost (media : InstaMedia) (profile : InstaProfile) (ml : MLResult) : SocialMediaPost :=
  { platform := "Instagram"
    post_id := media.mid
    author_username := profile.username
    content := media.caption
    hashtags := instagram_extract_hashtags media.caption
    mentions := instagram_extract_mentions media.caption
    is_disaster_related := ml.is_disaster
    disaster_confidence := ml.confidence
    sentiment := ml.sentiment
    sentiment_confidence := ml.sentiment_confidence
    credibility_score := instagram_calculate_credibility_score profile media.insights }

/-- `InstagramAPIClient._analyze_and_save_media` (instagram.py
207-309): skip an existing (platform, post_id), skip an empty caption,
classify the caption, and persist only when the verdict is
disaster-related with confidence at least 3/10.  Returns the new store
and whether a row was saved. -/
def instagram_analyze_and_save_media (classify : String → MLResult) (s : PostStore) (media : InstaMedia) (profile : InstaProfile) : PostStore × Bool :=
  if existsPost s "Instagram" media.mid then (s, false)
  else if media.caption == "" then (s, false)
  else
    let ml := classify media.caption
    if !ml.is_disaster || ml.confidence < 3/10 then (s, false)
    else (s ++ [mkInstaPost media profile ml], true)

/-- One candidate item pushed through either platform pipeline. -/
inductive Ingestion where
  | tweet (classify : String → MLResult) (t : ProcessedTweet)
  | insta (classify : String → MLResult) (media : InstaMedia) (profile : InstaProfile)

/-- Effect of one ingestion on the `SocialMediaPost` table. -/
def runIngestion (s : PostStore) : Ingestion → PostStore
  | .tweet classify t => (twitter_save_tweet_step classify (s, 0) t).1
  | .insta classify media profile => (instagram_analyze_and_save_media classify s media profile).1

/-- Effect of a finite sequence of ingestions, in order. -/
def runIngestions (s : PostStore) (l : List Ingestion) : PostStore :=
  l.foldl runIngestion s

/-- Number of stored rows with the given (platform, post_id) key. -/
def keyCount (s : PostStore) (platform post_id : String) : Nat :=
  (s.filter fun p => p.platform == platform && p.post_id == post_id).length

/-- One `APIUsage` counter bucket (one (platform, endpoint, date, hour)
key). -/
structure APIUsage where
  requests_made : Nat
  successful_requests : Nat
  failed_requests : Nat
  rate_limited : Nat
  data_retrieved : Nat
deriving Repr, DecidableEq

/-- The zero-counter bucket created by `get_or_create` when the key is
absent. -/
def APIUsage.zero : APIUsage := ⟨0, 0, 0, 0, 0⟩

/-- One observed call attempt as passed to `_log_api_usage`:
`data_count`, `success`, and (Instagram only) `rate_limited`. -/
structure UsageObs where
  data_count : Nat
  success : Bool
  rate_limited : Bool
deriving Repr, DecidableEq

/-- `InstagramAPIClient._log_api_usage` (instagram.py 363-394) acting
on an already-fetched bucket: `requests_made` always increments, then
exactly one of the success / rate-limited / failed branches runs, and
`data_retrieved` grows only in the success branch. -/
def instagram_usage_step (u : APIUsage) (o : UsageObs) : APIUsage :=
  let u := { u with requests_made := u.requests_made + 1 }
  if o.success then
    { u with successful_requests := u.successful_requests + 1,
             data_retrieved := u.data_retrieved + o.data_count }
  else if o.rate_limited then
    { u with rate_limited := u.rate_limited + 1 }
  else
    { u with failed_requests := u.failed_requests + 1 }

/-- `TwitterAPIClient._log_api_usage` (twitter.py 367-395): as the
Instagram version but with no rate-limited branch at all (the Twitter
logger takes only a success flag). -/
def twitter_usage_step (u : APIUsage) (o : UsageObs) : APIUsage :=
  let u := { u with requests_made := u.requests_made + 1 }
  if o.success then
    { u with successful_requests := u.successful_requests + 1,
             data_retrieved := u.data_retrieved + o.data_count }
  else
    { u with failed_requests := u.failed_requests + 1 }

/-- Stored `HazardReport` row (api/models.py 25-48).  `status` takes
the model default `"unverified"` on insert. -/
structure HazardReport where
  rid : Nat
  user : Nat
  description : String
  latitude : ℚ
  longitude : ℚ
  media_url : Option String
  status : String
deriving Repr, DecidableEq

/-- Client-supplied body of a create or update request.  The serializer
declares `id`, `created_at`, `user` and `status` read-only
(api/serializers.py 44), so `client_user` and `client_status` model
fields a client may send but which never reach `validated_data`. -/
structure HazardClientInput where
  description : String
  latitude : ℚ
  longitude : ℚ
  media_url : Option String
  client_user : Option Nat
  client_status : Option String
deriving Repr, DecidableEq

/-- `HazardReportSerializer.create` (api/serializers.py 47-51) plus the
model default for `status`: when the request user is authenticated the
row is inserted with `user` taken from the request, never from the
body; an unauthenticated request leaves the required `user` column
unset and the insert fails, modelled as `none`. -/
def hazardReportCreate (requestUser : Nat) (isAuthenticated : Bool) (nextId : Nat) (input : HazardClientInput) : Option HazardReport :=
  if isAuthenticated then
    some { rid := nextId
           user := requestUser
           description := input.description
           latitude := input.latitude
           longitude := input.longitude
           media_url := input.media_url
           status := "unverified" }
  else
    none

/-- The field assignments the stock `ModelSerializer.update` applies:
each key of `validated_data`, which the read-only declaration restricts
to `description`, `latitude`, `longitude` and `media_url`. -/
def applyHazardUpdate (inst : HazardReport) (input : HazardClientInput) : HazardReport :=
  { inst with
      description := input.description
      latitude := input.latitude
      longitude := input.longitude
      media_url := input.media_url }

/-- `HazardReportSerializer.update` (api/serializers.py 54-60): when a
request is in the serializer context and the instance owner differs
from the request user, raise before touching the instance; otherwise
apply the writable fields. -/
def hazardReportUpdate (requestUser : Option Nat) (inst : HazardReport) (input : HazardClientInput) : Except String HazardReport :=
  match requestUser with
  | some u =>
      if inst.user ≠ u then
        Except.error "You can only update your own reports."
      else
        Except.ok (applyHazardUpdate inst input)
  | none => Except.ok (applyHazardUpdate inst input)

/-- The row left in the table after an update attempt: a raised
serializer error aborts the write, leaving the instance as it was. -/
def storedAfterUpdate (inst : HazardReport) : Except String HazardReport → HazardReport
  | Except.ok r => r
  | Except.error _ => inst

/-- `HazardReportViewSet` destroy (api/views.py 16-19): the stock
`ModelViewSet` looks the instance up by primary key over the unfiltered
queryset and deletes it.  Neither the viewset nor the serializer
consults the caller, so the request user parameter is never read. -/
def hazardReportDestroy (requestUser : Nat) (store : List HazardReport) (rid : Nat) : List HazardReport × Bool :=
  if store.any (fun r => r.rid == rid) then
    (store.filter (fun r => r.rid != rid), true)
  else
    (store, false)

/-! ## Shared helper lemmas -/

/-- Clamping to the unit interval respects equality of the raw sums. -/
lemma clamp_congr {a b : ℚ} (h : a = b) : max 0 (min 1 a) = max 0 (min 1 b) := by
  rw [h]

/-! ## Claims about the credibility scorers (C3, C4, C5) -/

/-- C3, counterexample: the claim says the engagement-volume bonus on the
Twitter scorer follows the tier table giving +2/10 above 1000, so an
unverified tweet with no author metrics and total engagement 2000 would
score 1/2 + 2/10 = 7/10; the code gives that tweet 6/10, because the
Twitter engagement tiers are +1/10 above 100 and +5/100 above 10. -/
theorem c3_engagement_tier_counterexample :
    twitter_calculate_credibility_score
      ⟨"1", "calm seas", "u", "U", "en", none, [], [], [], false, none, 2000, 0, 0⟩ = 6/10 ∧
    (6 : ℚ)/10 ≠ 1/2 + 2/10 := by
  constructor
  · norm_num [twitter_calculate_credibility_score]
  · norm_num

/-- C3, amended: the Instagram scorer applies the engagement tier table
of the claim (above 1000 add 2/10, above 100 add 15/100, above 10 add
1/10, highest matching tier only); the Twitter scorer applies its own
table (above 100 add 1/10, above 10 add 5/100, highest matching tier
only, no tier above 1000).  Stated on an unverified account with no
follower data and no reach/impressions so only the engagement tier can
fire. -/
theorem c3_engagement_tier_amended :
    (∀ e : Int,
      instagram_calculate_credibility_score ⟨"1", "user", "PERSONAL"⟩ ⟨e, 0, 0⟩ =
        max 0 (min 1 (1/2 + (if e > 1000 then 2/10 else if e > 100 then 15/100
          else if e > 10 then 1/10 else (0 : ℚ))))) ∧
    (∀ e : Int,
      twitter_calculate_credibility_score
          ⟨"1", "t", "u", "U", "en", none, [], [], [], false, none, e, 0, 0⟩ =
        max 0 (min 1 (1/2 + (if e > 100 then 1/10 else if e > 10 then 5/100 else (0 : ℚ))))) := by
  constructor
  · intro e
    simp only [instagram_calculate_credibility_score]
    apply clamp_congr
    rw [if_neg (by decide : ¬(("PERSONAL" == "BUSINESS") = true))]
    rw [if_pos (by decide : ((0 : Int) == 0) = true)]
    rw [if_neg (by omega : ¬((0 : Int) > 10000)), if_neg (by omega : ¬((0 : Int) > 1000))]
    split_ifs <;> norm_num
  · intro e
    simp only [twitter_calculate_credibility_score]
    apply clamp_congr
    simp only [add_zero, Bool.false_eq_true, if_false]
    split_ifs <;> norm_num

/-- C4: both credibility scorers stay inside the unit interval for every
input, and when no bonus condition holds (unverified / non-business
account, no follower or reach tier matched, no engagement tier matched)
the score is exactly 1/2.  Determinism and purity hold by construction:
both scorers are embedded as plain functions of their inputs. -/
theorem c4_scorer_bounds_and_base :
    (∀ t : ProcessedTweet,
      0 ≤ twitter_calculate_credibility_score t ∧ twitter_calculate_credibility_score t ≤ 1) ∧
    (∀ (p : InstaProfile) (i : InstaInsights),
      0 ≤ instagram_calculate_credibility_score p i ∧
        instagram_calculate_credibility_score p i ≤ 1) ∧
    (∀ t : ProcessedTweet, t.is_verified = false →
      (∀ fc, t.author_followers = some fc → fc ≤ 1000) →
      t.like_count + t.retweet_count + t.reply_count ≤ 10 →
      twitter_calculate_credibility_score t = 1/2) ∧
    (∀ (p : InstaProfile) (i : InstaInsights), p.account_type ≠ "BUSINESS" →
      i.engagement ≤ 10 →
      (if i.reach == 0 then i.impressions else i.reach) ≤ 1000 →
      instagram_calculate_credibility_score p i = 1/2) := by
  refine ⟨?_, ?_, ?_, ?_⟩
  · intro t
    unfold twitter_calculate_credibility_score
    exact ⟨le_max_left 0 _, max_le (by norm_num) (min_le_left 1 _)⟩
  · intro p i
    unfold instagram_calculate_credibility_score
    exact ⟨le_max_left 0 _, max_le (by norm_num) (min_le_left 1 _)⟩
  · intro t hv hf he
    unfold twitter_calculate_credibility_score
    rw [hv]
    rcases h : t.author_followers with _ | fc
    · simp only [Bool.false_eq_true, if_false]
      rw [if_neg (by omega), if_neg (by omega)]
      norm_num
    · have hfc := hf fc h
      simp only [Bool.false_eq_true, if_false]
      rw [if_neg (by omega), if_neg (by omega), if_neg (by omega), if_neg (by omega),
        if_neg (by omega), if_neg (by omega)]
      norm_num
  · intro p i hb he hr
    simp only [instagram_calculate_credibility_score]
    generalize hR : (if (i.reach == 0) = true then i.impressions else i.reach) = R at hr ⊢
    rw [if_neg (show ¬(R > 10000) by omega), if_neg (show ¬(R > 1000) by omega),
      if_neg (show ¬(i.engagement > 1000) by omega),
      if_neg (show ¬(i.engagement > 100) by omega),
      if_neg (show ¬(i.engagement > 10) by omega),
      if_neg (show ¬((p.account_type == "BUSINESS") = true) by simpa using hb)]
    norm_num

/-- C4, witness: a concrete no-bonus input on each scorer evaluates to
exactly 1/2, and the bounds hold there. -/
theorem c4_scorer_bounds_and_base_witness :
    (0 ≤ twitter_calculate_credibility_score
        ⟨"9", "text", "u", "U", "en", none, [], [], [], false, some 50, 2, 1, 0⟩ ∧
      twitter_calculate_credibility_score
        ⟨"9", "text", "u", "U", "en", none, [], [], [], false, some 50, 2, 1, 0⟩ ≤ 1) ∧
    twitter_calculate_credibility_score
      ⟨"9", "text", "u", "U", "en", none, [], [], [], false, some 50, 2, 1, 0⟩ = 1/2 ∧
    instagram_calculate_credibility_score ⟨"7", "someone", "PERSONAL"⟩ ⟨5, 0, 0⟩ = 1/2 := by
  refine ⟨c4_scorer_bounds_and_base.1 _, ?_, ?_⟩
  · exact c4_scorer_bounds_and_base.2.2.1 _ rfl
      (fun fc h => by simpa using congrArg (fun o => o.getD 0 ≤ 1000) h.symm) (by norm_num)
  · exact c4_scorer_bounds_and_base.2.2.2 _ _ (by decide) (by norm_num) (by norm_num)

/-- C5: the Twitter follower-tier bonus is the single highest matching
tier of its table, never a sum of tiers: on an unverified tweet with no
engagement, the score is exactly the clamp of 1/2 plus the one matching
tier, every follower count above 1000000 contributes exactly 2/10, and
in particular 2000000 followers give 7/10, not the 1 that stacking all
four tiers would give. -/
theorem c5_follower_tier_exclusive :
    (∀ fc : Int,
      twitter_calculate_credibility_score
          ⟨"1", "t", "u", "U", "en", none, [], [], [], false, some fc, 0, 0, 0⟩ =
        max 0 (min 1 (1/2 + (if fc > 1000000 then 2/10 else if fc > 100000 then 15/100
          else if fc > 10000 then 1/10 else if fc > 1000 then 5/100 else (0 : ℚ))))) ∧
    (∀ fc : Int, fc > 1000000 →
      twitter_calculate_credibility_score
          ⟨"1", "t", "u", "U", "en", none, [], [], [], false, some fc, 0, 0, 0⟩ = 7/10) ∧
    twitter_calculate_credibility_score
        ⟨"1", "t", "u", "U", "en", none, [], [], [], false, some 2000000, 0, 0, 0⟩ = 7/10 ∧
    (7 : ℚ)/10 ≠ 1/2 + (2/10 + 15/100 + 1/10 + 5/100) := by
  have key : ∀ fc : Int,
      twitter_calculate_credibility_score
          ⟨"1", "t", "u", "U", "en", none, [], [], [], false, some fc, 0, 0, 0⟩ =
        max 0 (min 1 (1/2 + (if fc > 1000000 then 2/10 else if fc > 100000 then 15/100
          else if fc > 10000 then 1/10 else if fc > 1000 then 5/100 else (0 : ℚ)))) := by
    intro fc
    simp only [twitter_calculate_credibility_score]
    apply clamp_congr
    rw [if_neg (by omega : ¬((0 : Int) + 0 + 0 > 100)),
      if_neg (by omega : ¬((0 : Int) + 0 + 0 > 10)), if_neg Bool.false_ne_true]
    split_ifs <;> norm_num
  have top : ∀ fc : Int, fc > 1000000 →
      twitter_calculate_credibility_score
          ⟨"1", "t", "u", "U", "en", none, [], [], [], false, some fc, 0, 0, 0⟩ = 7/10 := by
    intro fc hfc
    rw [key fc, if_pos hfc]
    norm_num
  exact ⟨key, top, top 2000000 (by omega), by norm_num⟩

/-- C5, witness: the tier equation and the top-tier value at the
concrete follower count 5000000. -/
theorem c5_follower_tier_exclusive_witness :
    twitter_calculate_credibility_score
        ⟨"1", "t", "u", "U", "en", none, [], [], [], false, some 5000000, 0, 0, 0⟩ = 7/10 := by
  exact c5_follower_tier_exclusive.2.1 5000000 (by omega)

/-! ## Helper lemmas about the post store -/

/-- Appending one row changes a key count by one exactly when the row
carries that key. -/
lemma keyCount_append (s : PostStore) (p : SocialMediaPost) (pl pid : String) :
    keyCount (s ++ [p]) pl pid =
      keyCount s pl pid + (if (p.platform == pl && p.post_id == pid) = true then 1 else 0) := by
  simp only [keyCount, List.filter_append, List.length_append, List.filter_cons,
    List.filter_nil]
  by_cases h : (p.platform == pl && p.post_id == pid) = true <;> simp [h]

/-- A key that the existence check does not find has count zero. -/
lemma existsPost_false_keyCount (s : PostStore) (pl pid : String)
    (h : existsPost s pl pid = false) : keyCount s pl pid = 0 := by
  simp only [existsPost, List.any_eq_false] at h
  simp only [keyCount, List.length_eq_zero, List.filter_eq_nil_iff]
  exact fun p hp => h p hp

/-- After inserting a row whose key the store did not contain, every key
count stays at most one. -/
lemma keyCount_insert_le (s : PostStore) (p : SocialMediaPost) (pl pid : String)
    (hex : existsPost s p.platform p.post_id = false) (h : keyCount s pl pid ≤ 1) :
    keyCount (s ++ [p]) pl pid ≤ 1 := by
  rw [keyCount_append]
  by_cases hm : (p.platform == pl && p.post_id == pid) = true
  · have hpl : p.platform = pl := by
      have := (Bool.and_eq_true _ _).mp hm
      exact eq_of_beq this.1
    have hpid : p.post_id = pid := by
      have := (Bool.and_eq_true _ _).mp hm
      exact eq_of_beq this.2
    have h0 : keyCount s pl pid = 0 := by
      rw [← hpl, ← hpid]
      exact existsPost_false_keyCount _ _ _ hex
    simp [hm, h0]
  · rw [if_neg hm]
    omega

/-- The appended row itself makes the existence check succeed. -/
lemma existsPost_append_self (s : PostStore) (p : SocialMediaPost) :
    existsPost (s ++ [p]) p.platform p.post_id = true := by
  simp [existsPost, List.any_append]

/-- One ingestion step preserves the at-most-one-row-per-key invariant. -/
lemma runIngestion_keyCount_le (s : PostStore) (i : Ingestion) (pl pid : String)
    (h : keyCount s pl pid ≤ 1) : keyCount (runIngestion s i) pl pid ≤ 1 := by
  cases i with
  | tweet classify t =>
      simp only [runIngestion, twitter_save_tweet_step]
      by_cases hex : existsPost s "Twitter" t.tweet_id = true
      · simp [hex, h]
      · simp only [Bool.not_eq_true] at hex
        simp only [hex, Bool.false_eq_true, if_false]
        exact keyCount_insert_le s _ pl pid (by simpa [mkTwitterPost] using hex) h
  | insta classify media profile =>
      simp only [runIngestion, instagram_analyze_and_save_media]
      by_cases hex : existsPost s "Instagram" media.mid = true
      · simp [hex, h]
      · simp only [Bool.not_eq_true] at hex
        simp only [hex, Bool.false_eq_true, if_false]
        by_cases hcap : (media.caption == "") = true
        · simp [hcap, h]
        · simp only [hcap, Bool.false_eq_true, if_false]
          by_cases hgate : (!(classify media.caption).is_disaster
              || decide ((classify media.caption).confidence < 3/10)) = true
          · simp [hgate, h]
          · simp only [hgate, Bool.false_eq_true, if_false]
            exact keyCount_insert_le s _ pl pid (by simpa [mkInstaPost] using hex) h

/-- The at-most-one-row-per-key invariant is preserved by any sequence
of ingestions. -/
lemma runIngestions_keyCount_le (l : List Ingestion) (s : PostStore)
    (h : ∀ pl pid, keyCount s pl pid ≤ 1) :
    ∀ pl pid, keyCount (runIngestions s l) pl pid ≤ 1 := by
  induction l generalizing s with
  | nil => simpa [runIngestions] using h
  | cons i l ih =>
      intro pl pid
      have hstep : ∀ pl pid, keyCount (runIngestion s i) pl pid ≤ 1 :=
        fun pl pid => runIngestion_keyCount_le s i pl pid (h pl pid)
      simpa [runIngestions, List.foldl_cons] using ih (runIngestion s i) hstep pl pid

/-- Running the same ingestion twice in a row leaves the store exactly
as after the first run. -/
lemma runIngestion_idem (s : PostStore) (i : Ingestion) :
    runIngestion (runIngestion s i) i = runIngestion s i := by
  cases i with
  | tweet classify t =>
      simp only [runIngestion, twitter_save_tweet_step]
      by_cases hex : existsPost s "Twitter" t.tweet_id = true
      · simp [hex]
      · simp only [Bool.not_eq_true] at hex
        simp only [hex, Bool.false_eq_true, if_false]
        have hin : existsPost (s ++ [mkTwitterPost t (classify t.text)]) "Twitter"
            t.tweet_id = true := by
          simpa [mkTwitterPost] using
            existsPost_append_self s (mkTwitterPost t (classify t.text))
        simp [hin]
  | insta classify media profile =>
      simp only [runIngestion, instagram_analyze_and_save_media]
      by_cases hex : existsPost s "Instagram" media.mid = true
      · simp [hex]
      · simp only [Bool.not_eq_true] at hex
        simp only [hex, Bool.false_eq_true, if_false]
        by_cases hcap : (media.caption == "") = true
        · simp [hcap, hex]
        · simp only [hcap, Bool.false_eq_true, if_false]
          by_cases hgate : (!(classify media.caption).is_disaster
              || decide ((classify media.caption).confidence < 3/10)) = true
          · simp [hgate, hex, hcap]
          · simp only [hgate, Bool.false_eq_true, if_false]
            have hin : existsPost (s ++ [mkInstaPost media profile (classify media.caption)])
                "Instagram" media.mid = true := by
              simpa [mkInstaPost] using
                existsPost_append_self s (mkInstaPost media profile (classify media.caption))
            simp [hin]

/-! ## Claims about the deduplicating ingestor (C1, C2) -/

/-- C1, counterexample: the Twitter pipeline persists an item whose
classifier verdict is not disaster-related and whose confidence 0 is
below 3/10.  With a classifier that rejects every text, saving one new
tweet from an empty store still inserts one `SocialMediaPost` row for
it, carrying the negative verdict. -/
theorem c1_gate_counterexample :
    ((fun _ => (⟨false, 0, "neutral", 0⟩ : MLResult)) "calm seas today").is_disaster = false ∧
    ((fun _ => (⟨false, 0, "neutral", 0⟩ : MLResult)) "calm seas today").confidence < 3/10 ∧
    ((save_tweets_to_db (fun _ => (⟨false, 0, "neutral", 0⟩ : MLResult)) []
        [⟨"900", "calm seas today", "alice", "Alice", "en", none, [], [], [], false, none,
          1, 0, 0⟩]).1.map
      (fun p => (p.platform, p.post_id, p.is_disaster_related, p.disaster_confidence))) =
      [("Twitter", "900", false, 0)] := by
  refine ⟨rfl, by norm_num, ?_⟩
  rfl

/-- C1, amended: the gate holds only on the Instagram pipeline — for
any item whose classifier verdict is false or whose confidence is below
3/10, `_analyze_and_save_media` persists nothing; the Twitter pipeline
applies no gate at all and persists every tweet that is not already
stored, whatever the verdict. -/
theorem c1_gate_amended :
    (∀ (classify : String → MLResult) (s : PostStore) (media : InstaMedia)
        (profile : InstaProfile),
      ((classify media.caption).is_disaster = false ∨
        (classify media.caption).confidence < 3/10) →
      instagram_analyze_and_save_media classify s media profile = (s, false)) ∧
    (∀ (classify : String → MLResult) (s : PostStore) (t : ProcessedTweet),
      existsPost s "Twitter" t.tweet_id = false →
      save_tweets_to_db classify s [t] = (s ++ [mkTwitterPost t (classify t.text)], 1)) := by
  constructor
  · intro classify s media profile h
    simp only [instagram_analyze_and_save_media]
    by_cases hex : existsPost s "Instagram" media.mid = true
    · simp [hex]
    · simp only [Bool.not_eq_true] at hex
      simp only [hex, Bool.false_eq_true, if_false]
      by_cases hcap : (media.caption == "") = true
      · simp [hcap]
      · simp only [hcap, Bool.false_eq_true, if_false]
        have hc : (!(classify media.caption).is_disaster
            || decide ((classify media.caption).confidence < 3/10)) = true := by
          rcases h with h1 | h2
          · simp [h1]
          · simp [h2]
        simp [hc]
  · intro classify s t hex
    simp [save_tweets_to_db, twitter_save_tweet_step, hex]

/-- C1, amended, witness: a classifier that labels everything a
disaster at confidence 1/5 (below the 3/10 threshold) makes the
Instagram pipeline discard a concrete captioned media item, and the
Twitter pipeline inserts a concrete fresh tweet under the same
classifier. -/
theorem c1_gate_amended_witness :
    instagram_analyze_and_save_media (fun _ => ⟨true, 1/5, "neutral", 0⟩) []
      ⟨"m1", "storm swell", "IMAGE", "u", "", "", ⟨0, 0, 0⟩⟩ ⟨"7", "bob", "PERSONAL"⟩ =
      ([], false) ∧
    save_tweets_to_db (fun _ => ⟨true, 1/5, "neutral", 0⟩) []
      [⟨"901", "storm swell", "bob", "Bob", "en", none, [], [], [], false, none, 0, 0, 0⟩] =
      ([] ++ [mkTwitterPost
        ⟨"901", "storm swell", "bob", "Bob", "en", none, [], [], [], false, none, 0, 0, 0⟩
        ((fun _ => (⟨true, 1/5, "neutral", 0⟩ : MLResult)) "storm swell")], 1) := by
  constructor
  · exact c1_gate_amended.1 _ _ _ _ (Or.inr (by norm_num))
  · exact c1_gate_amended.2 _ _ _ rfl

/-- C2: ingesting the same item twice persists nothing new.  From an
empty store, any sequence of ingestions leaves at most one
`SocialMediaPost` row per (platform, post_id); repeating an ingestion
is a no-op on the store; and each pipeline, on seeing an existing
(platform, post_id), returns the store untouched with nothing counted
as saved. -/
theorem c2_dedupe_idempotent :
    (∀ (l : List Ingestion) (platform post_id : String),
      keyCount (runIngestions [] l) platform post_id ≤ 1) ∧
    (∀ (s : PostStore) (i : Ingestion),
      runIngestion (runIngestion s i) i = runIngestion s i) ∧
    (∀ (classify : String → MLResult) (s : PostStore) (t : ProcessedTweet),
      existsPost s "Twitter" t.tweet_id = true →
      twitter_save_tweet_step classify (s, 0) t = (s, 0)) ∧
    (∀ (classify : String → MLResult) (s : PostStore) (media : InstaMedia)
        (profile : InstaProfile),
      existsPost s "Instagram" media.mid = true →
      instagram_analyze_and_save_media classify s media profile = (s, false)) := by
  refine ⟨?_, runIngestion_idem, ?_, ?_⟩
  · intro l platform post_id
    exact runIngestions_keyCount_le l [] (by simp [keyCount]) platform post_id
  · intro classify s t hex
    simp [twitter_save_tweet_step, hex]
  · intro classify s media profile hex
    simp [instagram_analyze_and_save_media, hex]

/-- C2, witness: a store already holding a Twitter row with post id
"42" and an Instagram row with post id "77" is left untouched when the
same items arrive again. -/
theorem c2_dedupe_idempotent_witness :
    twitter_save_tweet_step (fun _ => ⟨true, 1, "neutral", 0⟩)
      ([⟨"Twitter", "42", "u", "hi", [], [], true, 1, "neutral", 0, 1/2⟩], 0)
      ⟨"42", "hi", "u", "U", "en", none, [], [], [], false, none, 0, 0, 0⟩ =
      ([⟨"Twitter", "42", "u", "hi", [], [], true, 1, "neutral", 0, 1/2⟩], 0) ∧
    instagram_analyze_and_save_media (fun _ => ⟨true, 1, "neutral", 0⟩)
      [⟨"Instagram", "77", "v", "yo", [], [], true, 1, "neutral", 0, 1/2⟩]
      ⟨"77", "yo", "IMAGE", "u", "", "", ⟨0, 0, 0⟩⟩ ⟨"7", "v", "PERSONAL"⟩ =
      ([⟨"Instagram", "77", "v", "yo", [], [], true, 1, "neutral", 0, 1/2⟩], false) := by
  constructor
  · exact c2_dedupe_idempotent.2.2.1 _ _ _ rfl
  · exact c2_dedupe_idempotent.2.2.2 _ _ _ _ rfl

/-! ## Claims about the usage tracker (C6) -/

/-- Sum of the three mutually exclusive outcome counters. -/
def outcomeSum (u : APIUsage) : Nat :=
  u.successful_requests + u.failed_requests + u.rate_limited

/-- Pointwise order on usage counters: every field of the first bucket
is at most the corresponding field of the second. -/
def usageLe (a b : APIUsage) : Prop :=
  a.requests_made ≤ b.requests_made ∧
  a.successful_requests ≤ b.successful_requests ∧
  a.failed_requests ≤ b.failed_requests ∧
  a.rate_limited ≤ b.rate_limited ∧
  a.data_retrieved ≤ b.data_retrieved

/-- Each Instagram observation adds one to `requests_made` and one to
the outcome sum. -/
lemma instagram_usage_step_counts (u : APIUsage) (o : UsageObs) :
    (instagram_usage_step u o).requests_made = u.requests_made + 1 ∧
    outcomeSum (instagram_usage_step u o) = outcomeSum u + 1 := by
  rcases o with ⟨dc, su, rl⟩
  cases su <;> cases rl <;> simp [instagram_usage_step, outcomeSum] <;> omega

/-- Each Twitter observation adds one to `requests_made` and one to the
outcome sum. -/
lemma twitter_usage_step_counts (u : APIUsage) (o : UsageObs) :
    (twitter_usage_step u o).requests_made = u.requests_made + 1 ∧
    outcomeSum (twitter_usage_step u o) = outcomeSum u + 1 := by
  rcases o with ⟨dc, su, rl⟩
  cases su <;> simp [twitter_usage_step, outcomeSum] <;> omega

/-- Folding Instagram observations accumulates both counts. -/
lemma instagram_usage_fold (l : List UsageObs) (u : APIUsage) :
    (l.foldl instagram_usage_step u).requests_made = u.requests_made + l.length ∧
    outcomeSum (l.foldl instagram_usage_step u) = outcomeSum u + l.length := by
  induction l generalizing u with
  | nil => simp
  | cons o l ih =>
      have h := instagram_usage_step_counts u o
      have h2 := ih (instagram_usage_step u o)
      constructor
      · rw [List.foldl_cons, h2.1, h.1, List.length_cons]
        omega
      · rw [List.foldl_cons, h2.2, h.2, List.length_cons]
        omega

/-- Folding Twitter observations accumulates both counts. -/
lemma twitter_usage_fold (l : List UsageObs) (u : APIUsage) :
    (l.foldl twitter_usage_step u).requests_made = u.requests_made + l.length ∧
    outcomeSum (l.foldl twitter_usage_step u) = outcomeSum u + l.length := by
  induction l generalizing u with
  | nil => simp
  | cons o l ih =>
      have h := twitter_usage_step_counts u o
      have h2 := ih (twitter_usage_step u o)
      constructor
      · rw [List.foldl_cons, h2.1, h.1, List.length_cons]
        omega
      · rw [List.foldl_cons, h2.2, h.2, List.length_cons]
        omega

/-- C6: starting from the absent (freshly zeroed) bucket, N
observations through either logger leave `requests_made = N` with the
three outcome counters summing to N; each observation increments
exactly one of the three outcome counters and leaves the other two
unchanged (the Twitter logger never touches `rate_limited`);
`data_retrieved` changes only on successful observations; and no
counter ever decreases. -/
theorem c6_usage_accumulation :
    (∀ l : List UsageObs,
      (l.foldl instagram_usage_step APIUsage.zero).requests_made = l.length ∧
      outcomeSum (l.foldl instagram_usage_step APIUsage.zero) = l.length ∧
      (l.foldl twitter_usage_step APIUsage.zero).requests_made = l.length ∧
      outcomeSum (l.foldl twitter_usage_step APIUsage.zero) = l.length) ∧
    (∀ (u : APIUsage) (o : UsageObs),
      ((instagram_usage_step u o).successful_requests = u.successful_requests + 1 ∧
        (instagram_usage_step u o).failed_requests = u.failed_requests ∧
        (instagram_usage_step u o).rate_limited = u.rate_limited) ∨
      ((instagram_usage_step u o).successful_requests = u.successful_requests ∧
        (instagram_usage_step u o).failed_requests = u.failed_requests ∧
        (instagram_usage_step u o).rate_limited = u.rate_limited + 1) ∨
      ((instagram_usage_step u o).successful_requests = u.successful_requests ∧
        (instagram_usage_step u o).failed_requests = u.failed_requests + 1 ∧
        (instagram_usage_step u o).rate_limited = u.rate_limited)) ∧
    (∀ (u : APIUsage) (o : UsageObs),
      (twitter_usage_step u o).rate_limited = u.rate_limited ∧
      (((twitter_usage_step u o).successful_requests = u.successful_requests + 1 ∧
          (twitter_usage_step u o).failed_requests = u.failed_requests) ∨
        ((twitter_usage_step u o).successful_requests = u.successful_requests ∧
          (twitter_usage_step u o).failed_requests = u.failed_requests + 1))) ∧
    (∀ (u : APIUsage) (o : UsageObs), o.success = false →
      (instagram_usage_step u o).data_retrieved = u.data_retrieved ∧
      (twitter_usage_step u o).data_retrieved = u.data_retrieved) ∧
    (∀ (u : APIUsage) (o : UsageObs),
      usageLe u (instagram_usage_step u o) ∧ usageLe u (twitter_usage_step u o)) := by
  refine ⟨?_, ?_, ?_, ?_, ?_⟩
  · intro l
    have hi := instagram_usage_fold l APIUsage.zero
    have ht := twitter_usage_fold l APIUsage.zero
    simp only [APIUsage.zero, outcomeSum] at hi ht ⊢
    omega
  · intro u o
    rcases o with ⟨dc, su, rl⟩
    cases su <;> cases rl <;> simp [instagram_usage_step]
  · intro u o
    rcases o with ⟨dc, su, rl⟩
    cases su <;> simp [twitter_usage_step]
  · intro u o h
    rcases o with ⟨dc, su, rl⟩
    cases su <;> cases rl <;> simp_all [instagram_usage_step, twitter_usage_step]
  · intro u o
    rcases o with ⟨dc, su, rl⟩
    cases su <;> cases rl <;>
      simp [instagram_usage_step, twitter_usage_step, usageLe]

/-- C6, witness: three observations (a success returning 5 items, a
rate-limited call, a failure) land the Instagram bucket at 3 requests
with outcome counters summing to 3, and the failure leaves
`data_retrieved` unchanged at any bucket. -/
theorem c6_usage_accumulation_witness :
    ([⟨5, true, false⟩, ⟨0, false, true⟩,
        (⟨0, false, false⟩ : UsageObs)].foldl instagram_usage_step APIUsage.zero).requests_made
      = 3 ∧
    outcomeSum ([⟨5, true, false⟩, ⟨0, false, true⟩,
        (⟨0, false, false⟩ : UsageObs)].foldl instagram_usage_step APIUsage.zero) = 3 ∧
    (instagram_usage_step ⟨1, 1, 0, 0, 5⟩ ⟨9, false, false⟩).data_retrieved = 5 := by
  refine ⟨(c6_usage_accumulation.1 _).1, (c6_usage_accumulation.1 _).2.1, ?_⟩
  exact (c6_usage_accumulation.2.2.2.1 ⟨1, 1, 0, 0, 5⟩ ⟨9, false, false⟩ rfl).1

/-! ## Claims about the HazardReport CRUD service (C7, C9, C10) -/

/-- C7: an update request whose caller is not the stored owner fails
with the serializer error and leaves every stored field of the record
unchanged; an update by the owner succeeds and rewrites exactly the
writable fields, keeping owner and status intact. -/
theorem c7_update_owner_only :
    (∀ (caller : Nat) (inst : HazardReport) (input : HazardClientInput),
      caller ≠ inst.user →
      (∃ e, hazardReportUpdate (some caller) inst input = Except.error e) ∧
      storedAfterUpdate inst (hazardReportUpdate (some caller) inst input) = inst) ∧
    (∀ (inst : HazardReport) (input : HazardClientInput),
      hazardReportUpdate (some inst.user) inst input =
        Except.ok (applyHazardUpdate inst input) ∧
      (applyHazardUpdate inst input).user = inst.user ∧
      (applyHazardUpdate inst input).status = inst.status) := by
  constructor
  · intro caller inst input h
    have hne : inst.user ≠ caller := fun hh => h hh.symm
    refine ⟨⟨"You can only update your own reports.", ?_⟩, ?_⟩
    · simp [hazardReportUpdate, hne]
    · simp [hazardReportUpdate, hne, storedAfterUpdate]
  · intro inst input
    refine ⟨?_, rfl, rfl⟩
    simp [hazardReportUpdate]

/-- C7, witness: caller 5 cannot update a report owned by user 3, which
stays intact; and owner 3 can. -/
theorem c7_update_owner_only_witness :
    ((∃ e, hazardReportUpdate (some 5) ⟨1, 3, "old", 0, 0, none, "unverified"⟩
        ⟨"new", 1, 2, none, none, none⟩ = Except.error e) ∧
      storedAfterUpdate ⟨1, 3, "old", 0, 0, none, "unverified"⟩
        (hazardReportUpdate (some 5) ⟨1, 3, "old", 0, 0, none, "unverified"⟩
          ⟨"new", 1, 2, none, none, none⟩) = ⟨1, 3, "old", 0, 0, none, "unverified"⟩) ∧
    hazardReportUpdate (some 3) ⟨1, 3, "old", 0, 0, none, "unverified"⟩
        ⟨"new", 1, 2, none, none, none⟩ =
      Except.ok (applyHazardUpdate ⟨1, 3, "old", 0, 0, none, "unverified"⟩
        ⟨"new", 1, 2, none, none, none⟩) := by
  exact ⟨c7_update_owner_only.1 5 _ _ (by decide), (c7_update_owner_only.2 _ _).1⟩

/-- C9: a create by an authenticated caller persists a record owned by
the caller with status "unverified", and the client-supplied owner and
status fields have no influence on the result. -/
theorem c9_create_assigns_owner_and_status :
    ∀ (requestUser nextId : Nat) (input : HazardClientInput),
      (∃ r, hazardReportCreate requestUser true nextId input = some r ∧
        r.user = requestUser ∧ r.status = "unverified") ∧
      (∀ (cu : Option Nat) (cs : Option String),
        hazardReportCreate requestUser true nextId
          { input with client_user := cu, client_status := cs } =
          hazardReportCreate requestUser true nextId input) := by
  intro u n input
  exact ⟨⟨_, rfl, rfl, rfl⟩, fun cu cs => rfl⟩

/-- C10 (implicit): the delete operation applies no ownership check:
for any stored report and any caller, including one who is not the
owner, delete succeeds and the record is gone. -/
theorem c10_delete_unguarded :
    ∀ (caller : Nat) (store : List HazardReport) (r : HazardReport),
      r ∈ store → caller ≠ r.user →
      (hazardReportDestroy caller store r.rid).2 = true ∧
      r ∉ (hazardReportDestroy caller store r.rid).1 := by
  intro caller store r hmem hne
  have hany : store.any (fun x => x.rid == r.rid) = true := by
    rw [List.any_eq_true]
    exact ⟨r, hmem, by simp⟩
  constructor
  · simp [hazardReportDestroy, hany]
  · simp [hazardReportDestroy, hany, List.mem_filter]

/-- C10, witness: caller 99, who does not own report 1 (owned by user
3), deletes it anyway. -/
theorem c10_delete_unguarded_witness :
    (hazardReportDestroy 99 [⟨1, 3, "d", 0, 0, none, "unverified"⟩] 1).2 = true ∧
    (⟨1, 3, "d", 0, 0, none, "unverified"⟩ : HazardReport) ∉
      (hazardReportDestroy 99 [⟨1, 3, "d", 0, 0, none, "unverified"⟩] 1).1 := by
  exact c10_delete_unguarded 99 [⟨1, 3, "d", 0, 0, none, "unverified"⟩]
    ⟨1, 3, "d", 0, 0, none, "unverified"⟩ (by simp) (by decide)

/-! ## Claim about the content normalizer (C8) -/

/-- On text containing no occurrence of the tag character, the
tagged-word scan finds nothing. -/
lemma findTaggedWords_eq_nil (tag : Char) (l : List Char) (h : ∀ c ∈ l, c ≠ tag) :
    findTaggedWords tag l = [] := by
  induction l with
  | nil => rw [findTaggedWords]
  | cons c rest ih =>
      have hc : (c == tag) = false := by
        simpa using h c (List.mem_cons_self c rest)
      rw [findTaggedWords]
      simp only [hc, Bool.false_and, Bool.false_eq_true, if_false]
      exact ih (fun x hx => h x (List.mem_cons_of_mem c hx))

/-- C8: the normalizers are total functions (every branch yields a
value; exceptions in the source are caught and mapped to defaults), and
they return empty collections for whatever they cannot parse: text with
no hash or at-sign tokens yields empty hashtag and mention lists on the
Instagram side, and a tweet payload with no entity or geo data yields
empty hashtag, mention and URL lists and no location on the Twitter
side. -/
theorem c8_normalizer_total :
    (∀ text : String, (∀ c ∈ text.toList, c ≠ '#') →
      instagram_extract_hashtags text = []) ∧
    (∀ text : String, (∀ c ∈ text.toList, c ≠ '@') →
      instagram_extract_mentions text = []) ∧
    (∀ t : RawTweet,
      t.entities_hashtags = none → t.entities_mentions = none → t.entities_urls = none →
      t.geo_point = none →
      (twitter_process_tweet t).hashtags = [] ∧ (twitter_process_tweet t).mentions = [] ∧
        (twitter_process_tweet t).urls = [] ∧ (twitter_process_tweet t).location = none) := by
  refine ⟨?_, ?_, ?_⟩
  · intro text h
    exact findTaggedWords_eq_nil _ _ h
  · intro text h
    exact findTaggedWords_eq_nil _ _ h
  · intro t h1 h2 h3 h4
    simp [twitter_process_tweet, h1, h2, h3, h4]

/-- C8, witness: concrete unparseable inputs come back as empty
collections. -/
theorem c8_normalizer_total_witness :
    instagram_extract_hashtags "no tags in this caption" = [] ∧
    instagram_extract_mentions "no mentions here" = [] ∧
    (twitter_process_tweet
        ⟨"1", "plain text", "9", "en", none, none, none, none, none, 0, 0, 0⟩).hashtags = [] ∧
    (twitter_process_tweet
        ⟨"1", "plain text", "9", "en", none, none, none, none, none, 0, 0, 0⟩).location =
      none := by
  refine ⟨c8_normalizer_total.1 _ (by decide), c8_normalizer_total.2.1 _ (by decide), ?_, ?_⟩
  · exact (c8_normalizer_total.2.2 _ rfl rfl rfl rfl).1
  · exact (c8_normalizer_total.2.2 _ rfl rfl rfl rfl).2.2.2
